import Mathlib

/-!
Shallow embedding of the chat-agent edge function
(`supabase/functions/chat-agent/index.ts`): the message data model, the
web-search tool, the OpenAI completion wrapper, the tool-calling agent
loop `runAgent`, and the request handler's response selection.

External services are modelled as oracles carried by a `World` value:
the OpenAI completion endpoint and the Tavily search endpoint each
become a stream of per-call outcomes (indexed by how many fetches have
been performed so far), and the two environment credentials become
`Option String` fields.  `JSON.parse` of a tool call's `arguments`
string is a platform primitive; a tool call's `arguments` text is
represented by the outcome that parse would produce on it (either a
parse failure carrying the raw text, or the parsed object restricted to
its string-valued fields, which is all the code ever reads).
-/

namespace ChatAgent

/-- Role of a chat message, from the `Message` interface's `role` union
type in `index.ts`. -/
inductive Role where
  | system
  | user
  | assistant
  | tool
deriving DecidableEq

/-- Outcome of `JSON.parse` on a tool call's `arguments` string:
`malformed raw` when the parse throws (the raw text is kept for
reference), `parsed fields` when it yields an object, restricted to its
string-valued fields (the only consumer reads `args.query as string`). -/
inductive JsonArguments where
  | malformed (raw : String)
  | parsed (fields : List (String × String))
deriving DecidableEq

/-- The `function` payload of a `ToolCall` in `index.ts`: a tool name
and its JSON-encoded arguments. -/
structure ToolCallFunction where
  name : String
  arguments : JsonArguments
deriving DecidableEq

/-- A tool call requested by the assistant, from the `ToolCall`
interface in `index.ts`.  The constant discriminator field
`type: "function"` is never read by the agent and is omitted. -/
structure ToolCall where
  id : String
  function : ToolCallFunction
deriving DecidableEq

/-- A chat message, from the `Message` interface in `index.ts`:
`tool_calls` is only ever set on assistant messages and `tool_call_id`
only on tool messages. -/
structure Message where
  role : Role
  content : String
  tool_calls : Option (List ToolCall) := none
  tool_call_id : Option String := none
deriving DecidableEq

/-- One Tavily search result, from the `TavilySearchResult` interface
in `index.ts` (the unread `score` field is omitted). -/
structure TavilySearchResult where
  title : String
  url : String
  content : String
deriving DecidableEq

/-- Outcome of one fetch to the Tavily search endpoint: a non-success
HTTP status (`response.ok` false), a thrown transport or parse fault
with its message, or a parsed success body's `results` list (an absent
`results` field is the empty list, per `data.results || []`). -/
inductive TavilyOutcome where
  | httpFail (status : Nat)
  | fault (msg : String)
  | ok (results : List TavilySearchResult)
deriving DecidableEq

/-- The fields of `data.choices[0]` that `callOpenAI` reads from a
successful OpenAI response: `message.content` (possibly null),
`message.tool_calls` (possibly absent) and `finish_reason`. -/
structure OpenAIChoice where
  content : Option String
  tool_calls : Option (List ToolCall)
  finish_reason : String
deriving DecidableEq

/-- Outcome of one fetch to the OpenAI completions endpoint: a
non-success HTTP status with its response body text, or a parsed
success body's first choice. -/
inductive OpenAIOutcome where
  | fail (status : Nat) (body : String)
  | ok (choice : OpenAIChoice)
deriving DecidableEq

/-- The environment and the external services a run interacts with:
the two credentials read from `Deno.env`, and one oracle stream per
endpoint giving the outcome of the n-th fetch performed against it. -/
structure World where
  openaiKey : Option String
  tavilyKey : Option String
  completions : Nat → OpenAIOutcome
  searches : Nat → TavilyOutcome

/-- Diagnostic content returned by `webSearch` when `TAVILY_API_KEY`
is absent. -/
def tavilyKeyMissingContent : String :=
  "Error: TAVILY_API_KEY not configured. Please add your Tavily API key to secrets."

/-- Render of a non-empty Tavily result list: indexed blocks of title,
url and content, joined by blank lines (`webSearch` lines 62-64). -/
def renderResults (results : List TavilySearchResult) : String :=
  String.intercalate "\n\n"
    (results.enum.map fun p =>
      "[" ++ toString (p.fst + 1) ++ "] " ++ p.snd.title ++ "\n" ++ p.snd.url ++ "\n" ++ p.snd.content)

/-- The `webSearch` function of `index.ts`.  `sIdx` counts Tavily
fetches already performed in this run; the pair returned is the string
result together with the updated fetch count.  Every failure mode
resolves to a string: a missing key to a fixed diagnostic (no fetch
performed), a non-ok response to the caught `Tavily API error` text,
and a thrown fault to its message prefixed by `Search error: ` (the
`throw` on a non-ok status is itself caught by the same `catch`). -/
def webSearch (w : World) (query : String) (sIdx : Nat) : String × Nat :=
  match w.tavilyKey with
  | none => (tavilyKeyMissingContent, sIdx)
  | some _ =>
    match w.searches sIdx with
    | TavilyOutcome.httpFail status =>
        ("Search error: Tavily API error: " ++ toString status, sIdx + 1)
    | TavilyOutcome.fault msg => ("Search error: " ++ msg, sIdx + 1)
    | TavilyOutcome.ok results =>
        if results.length = 0 then ("No search results found.", sIdx + 1)
        else (renderResults results, sIdx + 1)

/-- The `executeTool` function of `index.ts`: dispatch on the tool
name; `web_search` reads `args.query` and calls `webSearch`, any other
name yields the fixed `Unknown tool` text.  The Tavily fetch counter is
threaded through. -/
def executeTool (w : World) (name : String) (args : List (String × String)) (sIdx : Nat) :
    String × Nat :=
  if name = "web_search" then webSearch w ((args.lookup "query").getD "") sIdx
  else ("Unknown tool: " ++ name, sIdx)

/-- Diagnostic content of the synthetic assistant message returned by
`callOpenAI` when `OPENAI_API_KEY` is absent. -/
def openaiKeyMissingContent : String :=
  "Error: OPENAI_API_KEY not configured. Please add your OpenAI API key to secrets."

/-- The message of the error thrown by `callOpenAI` on a non-success
OpenAI response (line 138 of `index.ts`). -/
def openaiErrorMsg (status : Nat) (body : String) : String :=
  "OpenAI API error: " ++ toString status ++ " - " ++ body

/-- The message of the exception thrown by `JSON.parse` on a malformed
arguments string (line 187 of `index.ts`).  The exact text is
runtime-specific; the model fixes a representative text carrying the
raw input — only the fact that the parse throws matters. -/
def jsonParseErrorMsg (raw : String) : String :=
  "SyntaxError: unexpected token in JSON: " ++ raw

/-- What `callOpenAI` produces on success: a normalized assistant
message and the provider's finish reason. -/
structure CompletionResult where
  message : Message
  finishReason : String
deriving DecidableEq

/-- The `callOpenAI` function of `index.ts`.  With no key configured it
returns the synthetic diagnostic assistant message with finish reason
`stop` without fetching; otherwise the fetch's outcome is `outcome`:
a non-ok response becomes a thrown error (`Except.error`), a success
becomes an assistant message built from the first choice (`null`
content becomes the empty string).  The `messages` and `includeTools`
arguments only shape the request body and do not affect the outcome
decoding. -/
def callOpenAI (w : World) (messages : List Message) (includeTools : Bool)
    (outcome : OpenAIOutcome) : Except String CompletionResult :=
  match w.openaiKey with
  | none =>
      Except.ok
        { message := { role := Role.assistant, content := openaiKeyMissingContent },
          finishReason := "stop" }
  | some _ =>
    match outcome with
    | OpenAIOutcome.fail status body => Except.error (openaiErrorMsg status body)
    | OpenAIOutcome.ok choice =>
        Except.ok
          { message :=
              { role := Role.assistant, content := choice.content.getD "",
                tool_calls := choice.tool_calls },
            finishReason := choice.finish_reason }

/-- The body of the tool-execution for-loop of `runAgent` (lines
186-198 of `index.ts`) over one assistant message's tool-call list:
each call's arguments are parsed (`JSON.parse` throwing on malformed
text aborts the run), the tool is executed, and a `tool` message is
produced whose `tool_call_id` is the call's id and whose content is the
tool's text result.  Returns the tool messages in call order together
with the updated Tavily fetch count. -/
def execToolCalls (w : World) : List ToolCall → Nat → Except String (List Message × Nat)
  | [], sIdx => Except.ok ([], sIdx)
  | tc :: tcs, sIdx =>
    match tc.function.arguments with
    | JsonArguments.malformed raw => Except.error (jsonParseErrorMsg raw)
    | JsonArguments.parsed args =>
      match executeTool w tc.function.name args sIdx with
      | (result, sIdx2) =>
        match execToolCalls w tcs sIdx2 with
        | Except.error e => Except.error e
        | Except.ok (rest, sIdx3) =>
            Except.ok
              (({ role := Role.tool, content := result, tool_call_id := some tc.id } : Message)
                :: rest, sIdx3)

/-- The iteration cap of the agent loop (`maxIterations` in
`index.ts`). -/
def maxIterations : Nat := 5

/-- The while loop of `runAgent` (lines 170-199 of `index.ts`), with
the remaining iteration budget made explicit as `fuel` (the loop runs
while `iterations < maxIterations`, so the initial budget is
`maxIterations`).  `conv` is the working transcript
`conversationMessages`, `cIdx` counts `callOpenAI` calls already made
and `sIdx` Tavily fetches already made.  Returns the list of new
messages produced from this point on, paired with the number of
`callOpenAI` invocations performed from this point on; an uncaught
error (a non-success completion response, or a malformed arguments
string hitting `JSON.parse`) aborts with no messages, as a thrown
exception discards `newMessages`. -/
def runAgentLoop (w : World) : Nat → List Message → Nat → Nat →
    Except String (List Message) × Nat
  | 0, _, _, _ => (Except.ok [], 0)
  | fuel + 1, conv, cIdx, sIdx =>
    match callOpenAI w conv true (w.completions cIdx) with
    | Except.error e => (Except.error e, 1)
    | Except.ok res =>
      match res.message.tool_calls with
      | none => (Except.ok [res.message], 1)
      | some [] => (Except.ok [res.message], 1)
      | some (tc :: tcs) =>
        match execToolCalls w (tc :: tcs) sIdx with
        | Except.error e => (Except.error e, 1)
        | Except.ok (toolMsgs, sIdx2) =>
          match runAgentLoop w fuel (conv ++ (res.message :: toolMsgs)) (cIdx + 1) sIdx2 with
          | (Except.error e, n) => (Except.error e, n + 1)
          | (Except.ok msgs, n) => (Except.ok (res.message :: (toolMsgs ++ msgs)), n + 1)

/-- The fixed system instruction message prepended by `runAgent`
(lines 156-162 of `index.ts`); never part of the returned output. -/
def systemMessage : Message :=
  { role := Role.system,
    content := "You are a helpful AI assistant with access to web search. \nWhen users ask questions that require current information, use the web_search tool to find accurate, up-to-date answers.\nAlways cite your sources when providing information from search results.\nBe concise but thorough in your responses." }

/-- `runAgent` together with its `callOpenAI` invocation count: the
working transcript starts as the system instruction followed by the
input history, and the loop runs with budget `maxIterations`. -/
def runAgentAux (w : World) (messages : List Message) :
    Except String (List Message) × Nat :=
  runAgentLoop w maxIterations (systemMessage :: messages) 0 0

/-- The `runAgent` function of `index.ts`: the new messages produced
during one turn, or the uncaught error that aborted it. -/
def runAgent (w : World) (messages : List Message) : Except String (List Message) :=
  (runAgentAux w messages).fst

/-- The fallback response text of the request handler (line 270 of
`index.ts`). -/
def fallbackResponse : String := "I apologize, but I couldn't generate a response."

/-- Boolean test used by the handler's `filter(m => m.role === "assistant")`. -/
def isAssistant (m : Message) : Bool :=
  match m.role with
  | Role.assistant => true
  | _ => false

/-- The handler's response-text selection (lines 265-270 of
`index.ts`): the last assistant message of the agent output, with the
JavaScript `||` fallback kicking in when there is none or when its
content is the empty string. -/
def finalResponseText (agentMessages : List Message) : String :=
  match (agentMessages.filter isAssistant).getLast? with
  | some m => if m.content = "" then fallbackResponse else m.content
  | none => fallbackResponse

/-- A turn's boundary outcome: the handler returns
`{conversationId, response}` on success and `{error}` with status 500
when anything thrown reaches the top-level catch. -/
inductive TurnResponse where
  | success (response : String)
  | failure (error : String)
deriving DecidableEq

/-- The handler's treatment of the agent run (lines 251-280 of
`index.ts`): a successful run's output is persisted and summarized by
`finalResponseText`; a thrown error reaches the catch and becomes a
failure response. -/
def respondTurn (r : Except String (List Message)) : TurnResponse :=
  match r with
  | Except.ok msgs => TurnResponse.success (finalResponseText msgs)
  | Except.error e => TurnResponse.failure e

/-- Checker for the tool-call pairing invariant on a produced message
sequence.  `pending` is the list of tool calls of the most recent
assistant message that still await their tool messages: while it is
non-empty the next message must be a `tool` message whose
`tool_call_id` is the id of the head pending call; when it is empty the
next message must be an assistant message, whose own tool-call list (if
any) becomes pending.  A sequence passes exactly when every tool
message answers, in order and one-for-one, the tool calls of the
immediately preceding assistant message. -/
def checkToolPairing : List ToolCall → List Message → Bool
  | [], [] => true
  | _ :: _, [] => false
  | [], m :: rest =>
    match m.role, m.tool_calls with
    | Role.assistant, some tcs => checkToolPairing tcs rest
    | Role.assistant, none => checkToolPairing [] rest
    | _, _ => false
  | tc :: tcs, m :: rest =>
    match m.role, m.tool_call_id with
    | Role.tool, some i => if i = tc.id then checkToolPairing tcs rest else false
    | _, _ => false

/-- Role of the last message of a run's output, when the run succeeded
and produced at least one message. -/
def lastRole (r : Except String (List Message)) : Option Role :=
  match r with
  | Except.error _ => none
  | Except.ok msgs =>
    match msgs.getLast? with
    | none => none
    | some m => some m.role

/-- A user message with the given content. -/
def userMessage (content : String) : Message :=
  { role := Role.user, content := content }

/-- An OpenAI choice that answers with plain text and stops. -/
def stopChoice (content : String) : OpenAIChoice :=
  { content := some content, tool_calls := none, finish_reason := "stop" }

/-- A `web_search` tool call with a well-formed arguments object. -/
def searchCall (id query : String) : ToolCall :=
  { id := id, function := { name := "web_search", arguments := JsonArguments.parsed [("query", query)] } }

/-- The tool message produced for a tool call whose name is not
registered. -/
def unknownToolMessage (tc : ToolCall) : Message :=
  { role := Role.tool, content := "Unknown tool: " ++ tc.function.name, tool_call_id := some tc.id }

/-- Stub world for the plain-answer scenario: the provider answers
immediately with no tool calls. -/
def stopWorld : World :=
  { openaiKey := some "sk-demo", tavilyKey := none,
    completions := fun _ => OpenAIOutcome.ok (stopChoice "Hi there!"),
    searches := fun _ => TavilyOutcome.ok [] }

/-- Stub world for the two-iteration search scenario: the first
completion requests one `web_search` call, the second answers. -/
def searchWorld : World :=
  { openaiKey := some "sk-demo", tavilyKey := some "tvly-demo",
    completions := fun i =>
      if i = 0 then
        OpenAIOutcome.ok
          { content := some "", tool_calls := some [searchCall "call_1" "weather in Paris today"],
            finish_reason := "tool_calls" }
      else OpenAIOutcome.ok (stopChoice "It is 18C and cloudy."),
    searches := fun _ =>
      TavilyOutcome.ok [{ title := "Paris Weather", url := "https://example.com/paris", content := "18C, cloudy" }] }

/-- Stub world whose provider requests a tool call carrying a
malformed arguments string. -/
def badArgsWorld : World :=
  { openaiKey := some "sk-demo", tavilyKey := none,
    completions := fun _ =>
      OpenAIOutcome.ok
        { content := some "",
          tool_calls := some
            [{ id := "call_bad",
               function := { name := "web_search", arguments := JsonArguments.malformed "not json" } }],
          finish_reason := "tool_calls" },
    searches := fun _ => TavilyOutcome.ok [] }

/-- Stub world whose provider fails with HTTP 500 on the very first
completion call. -/
def failFirstWorld : World :=
  { openaiKey := some "sk-demo", tavilyKey := none,
    completions := fun _ => OpenAIOutcome.fail 500 "boom",
    searches := fun _ => TavilyOutcome.ok [] }

/-- Stub world whose provider first requests one `web_search` call and
then fails with HTTP 500 on the second completion call. -/
def failSecondWorld : World :=
  { openaiKey := some "sk-demo", tavilyKey := none,
    completions := fun i =>
      if i = 0 then
        OpenAIOutcome.ok
          { content := some "Let me look that up.",
            tool_calls := some [searchCall "call_1" "weather"], finish_reason := "tool_calls" }
      else OpenAIOutcome.fail 500 "boom",
    searches := fun _ => TavilyOutcome.ok [] }

/-- Stub world with no completion-provider credential configured. -/
def noKeyWorld : World :=
  { openaiKey := none, tavilyKey := none,
    completions := fun _ => OpenAIOutcome.fail 0 "never fetched",
    searches := fun _ => TavilyOutcome.ok [] }

/-- A tool call whose name is not registered. -/
def getTimeCall : ToolCall :=
  { id := "call_time", function := { name := "get_time", arguments := JsonArguments.parsed [] } }

/-- Stub world whose provider first requests an unregistered tool and
then answers. -/
def unknownToolWorld : World :=
  { openaiKey := some "sk-demo", tavilyKey := none,
    completions := fun i =>
      if i = 0 then
        OpenAIOutcome.ok
          { content := some "", tool_calls := some [getTimeCall], finish_reason := "tool_calls" }
      else OpenAIOutcome.ok (stopChoice "Done."),
    searches := fun _ => TavilyOutcome.ok [] }

/-- Stub world whose provider requests a tool call on every iteration,
with non-empty assistant content alongside the calls, so the run hits
the iteration cap. -/
def capWorld : World :=
  { openaiKey := some "sk-demo", tavilyKey := none,
    completions := fun _ =>
      OpenAIOutcome.ok
        { content := some "Searching the web...",
          tool_calls := some [searchCall "call_loop" "weather"], finish_reason := "tool_calls" },
    searches := fun _ => TavilyOutcome.ok [] }

/-- Stub world like `capWorld` but with null assistant content on
every iteration, as the real provider produces alongside tool calls. -/
def capEmptyWorld : World :=
  { openaiKey := some "sk-demo", tavilyKey := none,
    completions := fun _ =>
      OpenAIOutcome.ok
        { content := none,
          tool_calls := some [searchCall "call_loop" "weather"], finish_reason := "tool_calls" },
    searches := fun _ => TavilyOutcome.ok [] }

/-- A malformed persisted history: its tool message's `tool_call_id`
matches no tool call of any preceding assistant message. -/
def orphanHistory : List Message :=
  [userMessage "hi",
   { role := Role.tool, content := "orphan result", tool_call_id := some "call_orphan" }]

/-- Stub world with a benign provider, used to run a malformed
history through the agent. -/
def orphanWorld : World :=
  { openaiKey := some "sk-demo", tavilyKey := none,
    completions := fun _ => OpenAIOutcome.ok (stopChoice "fine"),
    searches := fun _ => TavilyOutcome.ok [] }

/-- Stub world whose provider echoes the assistant message `hi` with
no tool calls. -/
def echoWorld : World :=
  { openaiKey := some "sk-demo", tavilyKey := none,
    completions := fun _ => OpenAIOutcome.ok (stopChoice "hi"),
    searches := fun _ => TavilyOutcome.ok [] }

/-- A history that already contains the assistant message `hi` that
`echoWorld`'s provider returns. -/
def echoHistory : List Message :=
  [{ role := Role.assistant, content := "hi" }]

/-- A successful `callOpenAI` always yields an assistant-role message
(both the synthetic no-key message and the decoded choice are built
with role `assistant`). -/
theorem callOpenAI_role (w : World) (msgs : List Message) (b : Bool)
    (o : OpenAIOutcome) (r : CompletionResult)
    (h : callOpenAI w msgs b o = Except.ok r) : r.message.role = Role.assistant := by
  unfold callOpenAI at h
  cases hk : w.openaiKey with
  | none => rw [hk] at h; cases h; rfl
  | some k =>
    rw [hk] at h
    cases o with
    | fail status body => cases h
    | ok choice => cases h; rfl

/-- Every message produced by the tool-execution loop has role `tool`. -/
theorem execToolCalls_roles (w : World) :
    ∀ (tcs : List ToolCall) (s : Nat) (tms : List Message) (s2 : Nat),
      execToolCalls w tcs s = Except.ok (tms, s2) →
      ∀ m ∈ tms, m.role = Role.tool := by
  intro tcs
  induction tcs with
  | nil =>
    intro s tms s2 h m hm
    simp only [execToolCalls] at h
    cases h
    simp at hm
  | cons tc tcs ih =>
    intro s tms s2 h m hm
    simp only [execToolCalls] at h
    cases harg : tc.function.arguments with
    | malformed raw => rw [harg] at h; cases h
    | parsed args =>
      simp only [harg] at h
      cases hrec : execToolCalls w tcs (executeTool w tc.function.name args s).2 with
      | error e => rw [hrec] at h; cases h
      | ok p =>
        obtain ⟨rest, s4⟩ := p
        rw [hrec] at h
        cases h
        rcases List.mem_cons.mp hm with hm | hm
        · subst hm; rfl
        · exact ih _ rest _ hrec m hm

/-- The tool messages produced by the tool-execution loop answer the
executed tool calls one-for-one and in order: placed after any
`pending` expectation equal to the executed calls, they discharge it. -/
theorem execToolCalls_pairing (w : World) :
    ∀ (tcs : List ToolCall) (s : Nat) (tms : List Message) (s2 : Nat),
      execToolCalls w tcs s = Except.ok (tms, s2) →
      ∀ (rest : List Message),
        checkToolPairing tcs (tms ++ rest) = checkToolPairing [] rest := by
  intro tcs
  induction tcs with
  | nil =>
    intro s tms s2 h rest
    simp only [execToolCalls] at h
    cases h
    rfl
  | cons tc tcs ih =>
    intro s tms s2 h rest
    simp only [execToolCalls] at h
    cases harg : tc.function.arguments with
    | malformed raw => rw [harg] at h; cases h
    | parsed args =>
      simp only [harg] at h
      cases hrec : execToolCalls w tcs (executeTool w tc.function.name args s).2 with
      | error e => rw [hrec] at h; cases h
      | ok p =>
        obtain ⟨tms2, s4⟩ := p
        rw [hrec] at h
        cases h
        simp only [List.cons_append, checkToolPairing, if_pos rfl]
        exact ih _ tms2 _ hrec rest

/-- The loop performs at most `fuel` completion calls. -/
theorem runAgentLoop_calls_le (w : World) :
    ∀ (fuel : Nat) (conv : List Message) (cIdx sIdx : Nat)
      (r : Except String (List Message)) (m : Nat),
      runAgentLoop w fuel conv cIdx sIdx = (r, m) → m ≤ fuel := by
  intro fuel
  induction fuel with
  | zero =>
    intro conv cIdx sIdx r m h
    simp only [runAgentLoop] at h
    cases h
    exact Nat.le_refl 0
  | succ n ih =>
    intro conv cIdx sIdx r m h
    simp only [runAgentLoop] at h
    split at h
    · cases h; omega
    · split at h
      · cases h; omega
      · cases h; omega
      · split at h
        · cases h; omega
        · split at h
          · rename_i hrec
            cases h
            have := ih _ _ _ _ _ hrec
            omega
          · rename_i hrec
            cases h
            have := ih _ _ _ _ _ hrec
            omega

/-- A successful run of the loop yields a message list satisfying the
tool-call pairing invariant. -/
theorem runAgentLoop_pairing (w : World) :
    ∀ (fuel : Nat) (conv : List Message) (cIdx sIdx : Nat) (out : List Message),
      (runAgentLoop w fuel conv cIdx sIdx).fst = Except.ok out →
      checkToolPairing [] out = true := by
  intro fuel
  induction fuel with
  | zero =>
    intro conv cIdx sIdx out h
    simp only [runAgentLoop] at h
    cases h
    rfl
  | succ n ih =>
    intro conv cIdx sIdx out h
    simp only [runAgentLoop] at h
    split at h
    · cases h
    · rename_i res hco
      split at h
      · rename_i htc
        cases h
        simp [checkToolPairing, callOpenAI_role w conv true (w.completions cIdx) res hco, htc]
      · rename_i htc
        cases h
        simp [checkToolPairing, callOpenAI_role w conv true (w.completions cIdx) res hco, htc]
      · rename_i tc tcs htc
        split at h
        · cases h
        · rename_i tms sIdx2 hex
          split at h
          · cases h
          · rename_i msgs m hrec
            cases h
            have hrole := callOpenAI_role w conv true (w.completions cIdx) res hco
            have hrest : checkToolPairing [] msgs = true := by
              apply ih (conv ++ (res.message :: tms)) (cIdx + 1) sIdx2
              rw [hrec]
            simp only [checkToolPairing]
            rw [hrole, htc]
            show checkToolPairing (tc :: tcs) (tms ++ msgs) = true
            rw [execToolCalls_pairing w (tc :: tcs) sIdx tms sIdx2 hex msgs]
            exact hrest

/-- Every message in a successful run's output has role `assistant` or
`tool`. -/
theorem runAgentLoop_roles (w : World) :
    ∀ (fuel : Nat) (conv : List Message) (cIdx sIdx : Nat) (out : List Message),
      (runAgentLoop w fuel conv cIdx sIdx).fst = Except.ok out →
      ∀ m ∈ out, m.role = Role.assistant ∨ m.role = Role.tool := by
  intro fuel
  induction fuel with
  | zero =>
    intro conv cIdx sIdx out h
    simp only [runAgentLoop] at h
    cases h
    simp
  | succ n ih =>
    intro conv cIdx sIdx out h
    simp only [runAgentLoop] at h
    split at h
    · cases h
    · rename_i res hco
      have hrole := callOpenAI_role w conv true (w.completions cIdx) res hco
      split at h
      · cases h
        intro m hm
        simp only [List.mem_singleton] at hm
        subst hm
        exact Or.inl hrole
      · cases h
        intro m hm
        simp only [List.mem_singleton] at hm
        subst hm
        exact Or.inl hrole
      · rename_i tc tcs htc
        split at h
        · cases h
        · rename_i tms sIdx2 hex
          split at h
          · cases h
          · rename_i msgs m hrec
            cases h
            intro x hx
            rcases List.mem_cons.mp hx with hx | hx
            · subst hx; exact Or.inl hrole
            · rcases List.mem_append.mp hx with hx | hx
              · exact Or.inr (execToolCalls_roles w (tc :: tcs) sIdx tms sIdx2 hex x hx)
              · apply ih (conv ++ (res.message :: tms)) (cIdx + 1) sIdx2 msgs _ x hx
                rw [hrec]

/-- A thrown `callOpenAI` error is always the OpenAI transport error
text. -/
theorem callOpenAI_error_shape (w : World) (msgs : List Message) (b : Bool)
    (o : OpenAIOutcome) (e : String)
    (h : callOpenAI w msgs b o = Except.error e) :
    ∃ st body, e = openaiErrorMsg st body := by
  unfold callOpenAI at h
  cases hk : w.openaiKey with
  | none => rw [hk] at h; cases h
  | some k =>
    rw [hk] at h
    cases o with
    | fail status body =>
      cases h
      exact ⟨status, body, rfl⟩
    | ok choice => cases h

/-- A thrown tool-execution error is always a `JSON.parse` failure on
some call's arguments string. -/
theorem execToolCalls_error_shape (w : World) :
    ∀ (tcs : List ToolCall) (s : Nat) (e : String),
      execToolCalls w tcs s = Except.error e →
      ∃ raw, e = jsonParseErrorMsg raw := by
  intro tcs
  induction tcs with
  | nil => intro s e h; simp only [execToolCalls] at h; cases h
  | cons tc tcs ih =>
    intro s e h
    simp only [execToolCalls] at h
    cases harg : tc.function.arguments with
    | malformed raw =>
      rw [harg] at h
      cases h
      exact ⟨raw, rfl⟩
    | parsed args =>
      simp only [harg] at h
      cases hrec : execToolCalls w tcs (executeTool w tc.function.name args s).2 with
      | error e2 =>
        rw [hrec] at h
        cases h
        exact ih _ _ hrec
      | ok p =>
        obtain ⟨tms2, s4⟩ := p
        rw [hrec] at h
        cases h

/-- An error aborting the loop is either an OpenAI transport error or a
`JSON.parse` failure on a tool call's arguments. -/
theorem runAgentLoop_error_shape (w : World) :
    ∀ (fuel : Nat) (conv : List Message) (cIdx sIdx : Nat) (e : String),
      (runAgentLoop w fuel conv cIdx sIdx).fst = Except.error e →
      (∃ st body, e = openaiErrorMsg st body) ∨ (∃ raw, e = jsonParseErrorMsg raw) := by
  intro fuel
  induction fuel with
  | zero =>
    intro conv cIdx sIdx e h
    simp only [runAgentLoop] at h
    cases h
  | succ n ih =>
    intro conv cIdx sIdx e h
    simp only [runAgentLoop] at h
    split at h
    · rename_i e2 hco
      cases h
      exact Or.inl (callOpenAI_error_shape w conv true (w.completions cIdx) _ hco)
    · rename_i res hco
      split at h
      · cases h
      · cases h
      · rename_i tc tcs htc
        split at h
        · rename_i e2 hex
          cases h
          exact Or.inr (execToolCalls_error_shape w (tc :: tcs) sIdx _ hex)
        · rename_i tms sIdx2 hex
          split at h
          · rename_i e2 m hrec
            cases h
            apply ih (conv ++ (res.message :: tms)) (cIdx + 1) sIdx2
            rw [hrec]
          · cases h

/-- Unfolding of one loop iteration whose completion response carries
no tool calls: the loop stops with that single assistant message after
one completion call. -/
theorem runAgentLoop_stop (w : World) (fuel : Nat) (conv : List Message)
    (cIdx sIdx : Nat) (res : CompletionResult)
    (h1 : callOpenAI w conv true (w.completions cIdx) = Except.ok res)
    (h2 : res.message.tool_calls = none ∨ res.message.tool_calls = some []) :
    runAgentLoop w (fuel + 1) conv cIdx sIdx = (Except.ok [res.message], 1) := by
  simp only [runAgentLoop, h1]
  rcases h2 with h2 | h2 <;> rw [h2]

/-- Unfolding of one loop iteration whose completion response carries
tool calls that all execute: the loop appends the assistant message and
the tool messages and continues with the next iteration. -/
theorem runAgentLoop_tool_step (w : World) (fuel : Nat) (conv : List Message)
    (cIdx sIdx : Nat) (res : CompletionResult) (tc : ToolCall) (tcs : List ToolCall)
    (tms : List Message) (sIdx2 : Nat)
    (h1 : callOpenAI w conv true (w.completions cIdx) = Except.ok res)
    (h2 : res.message.tool_calls = some (tc :: tcs))
    (h3 : execToolCalls w (tc :: tcs) sIdx = Except.ok (tms, sIdx2)) :
    runAgentLoop w (fuel + 1) conv cIdx sIdx =
      (match runAgentLoop w fuel (conv ++ (res.message :: tms)) (cIdx + 1) sIdx2 with
       | (Except.error e, n) => (Except.error e, n + 1)
       | (Except.ok msgs, n) => (Except.ok (res.message :: (tms ++ msgs)), n + 1)) := by
  simp only [runAgentLoop, h1, h2, h3]

/-- Unfolding of one loop iteration whose completion fetch returns a
non-success status while a key is configured: the loop aborts at once
with the transport error text. -/
theorem runAgentLoop_fail (w : World) (fuel : Nat) (conv : List Message)
    (cIdx sIdx : Nat) (st : Nat) (body k : String)
    (hkey : w.openaiKey = some k)
    (hc : w.completions cIdx = OpenAIOutcome.fail st body) :
    runAgentLoop w (fuel + 1) conv cIdx sIdx =
      (Except.error (openaiErrorMsg st body), 1) := by
  have hco : callOpenAI w conv true (w.completions cIdx) =
      Except.error (openaiErrorMsg st body) := by
    unfold callOpenAI
    rw [hkey, hc]
  simp only [runAgentLoop, hco]

/-- C1: for every environment and input history the agent loop
terminates — it is a total function whose explicit iteration budget
mirrors the code's `maxIterations` guard — and the number of
`callOpenAI` invocations in one run (an upper bound on completion
provider calls, which are skipped when no key is configured) never
exceeds 5. -/
theorem claim1_iteration_cap (w : World) (history : List Message) :
    (runAgentAux w history).snd ≤ 5 :=
  runAgentLoop_calls_le w maxIterations (systemMessage :: history) 0 0
    (runAgentAux w history).fst (runAgentAux w history).snd rfl

/-- C2: every message sequence a run produces satisfies the tool-call
pairing invariant — each tool message's `tool_call_id` is the id of the
corresponding tool call of the immediately preceding assistant message,
and the tool messages follow that assistant message one per tool call,
in the order the calls appear. -/
theorem claim2_tool_pairing (w : World) (history out : List Message)
    (h : runAgent w history = Except.ok out) :
    checkToolPairing [] out = true :=
  runAgentLoop_pairing w maxIterations (systemMessage :: history) 0 0 out h

/-- Witness for C2 at the two-iteration search scenario. -/
theorem claim2_tool_pairing_witness :
    checkToolPairing []
      [{ role := Role.assistant, content := "",
         tool_calls := some [searchCall "call_1" "weather in Paris today"] },
       { role := Role.tool,
         content := "[1] Paris Weather\nhttps://example.com/paris\n18C, cloudy",
         tool_call_id := some "call_1" },
       { role := Role.assistant, content := "It is 18C and cloudy." }] = true :=
  claim2_tool_pairing searchWorld [userMessage "What is the weather in Paris today?"] _ (by rfl)

/-- C3: if the first completion response carries no tool calls (absent
or empty `tool_calls`), the run stops after exactly one iteration and
its output is exactly that single assistant message. -/
theorem claim3_first_response_stops (w : World) (history : List Message)
    (res : CompletionResult)
    (h1 : callOpenAI w (systemMessage :: history) true (w.completions 0) = Except.ok res)
    (h2 : res.message.tool_calls = none ∨ res.message.tool_calls = some []) :
    runAgentAux w history = (Except.ok [res.message], 1) :=
  runAgentLoop_stop w 4 (systemMessage :: history) 0 0 res h1 h2

/-- Witness for C3 at the plain-answer scenario. -/
theorem claim3_first_response_stops_witness :
    runAgentAux stopWorld [userMessage "Hello"] =
      (Except.ok [{ role := Role.assistant, content := "Hi there!" }], 1) :=
  claim3_first_response_stops stopWorld [userMessage "Hello"]
    { message := { role := Role.assistant, content := "Hi there!" }, finishReason := "stop" }
    (by rfl) (Or.inl rfl)

/-- C4 counterexample: a tool call whose arguments string is malformed
makes `runAgent` throw — `JSON.parse` runs in the loop, before the tool
boundary, and its failure is not caught — so a tool call can cause a
turn-level failure, contrary to the claim. -/
theorem claim4_counterexample :
    runAgent badArgsWorld [] = Except.error (jsonParseErrorMsg "not json") := by rfl

/-- C4 amended: tool-side faults (missing search credential,
non-success upstream response, transport fault, unknown tool) are
converted into tool-message content — the only errors that can abort a
run are a completion-provider transport error and a `JSON.parse`
failure on a tool call's malformed arguments string, which happens in
the loop before the tool boundary. -/
theorem claim4_tool_faults_as_content (w : World) (history : List Message) (e : String)
    (h : runAgent w history = Except.error e) :
    (∃ st body, e = openaiErrorMsg st body) ∨ (∃ raw, e = jsonParseErrorMsg raw) :=
  runAgentLoop_error_shape w maxIterations (systemMessage :: history) 0 0 e h

/-- Witness for the amended C4 at a failing-provider world. -/
theorem claim4_tool_faults_as_content_witness :
    (∃ st body, openaiErrorMsg 500 "boom" = openaiErrorMsg st body) ∨
      (∃ raw, openaiErrorMsg 500 "boom" = jsonParseErrorMsg raw) :=
  claim4_tool_faults_as_content failFirstWorld [] (openaiErrorMsg 500 "boom") (by rfl)

/-- C5 counterexample: when the second completion call fails, the whole
run aborts with the transport error — the first iteration's assistant
and tool messages are not returned to the caller (the result is an
error, not a partial output list), and the handler answers with a
failure response, contrary to the claim's "earlier iterations' output
is still returned". -/
theorem claim5_counterexample :
    runAgent failSecondWorld [] = Except.error (openaiErrorMsg 500 "boom") ∧
      respondTurn (runAgent failSecondWorld []) =
        TurnResponse.failure (openaiErrorMsg 500 "boom") :=
  ⟨by rfl, by rfl⟩

/-- C5 amended: a non-success completion response is not caught inside
the loop and aborts the turn: after a first iteration that executed
tool calls, a failing second completion makes the run return the
transport error alone — no messages at all, the earlier iteration's
included — after exactly two completion calls. -/
theorem claim5_transport_error_aborts (w : World) (history : List Message)
    (k : String) (hkey : w.openaiKey = some k)
    (res : CompletionResult) (tc : ToolCall) (tcs : List ToolCall)
    (h1 : callOpenAI w (systemMessage :: history) true (w.completions 0) = Except.ok res)
    (h2 : res.message.tool_calls = some (tc :: tcs))
    (tms : List Message) (sIdx2 : Nat)
    (h3 : execToolCalls w (tc :: tcs) 0 = Except.ok (tms, sIdx2))
    (st : Nat) (body : String)
    (h4 : w.completions 1 = OpenAIOutcome.fail st body) :
    runAgentAux w history = (Except.error (openaiErrorMsg st body), 2) := by
  have hstep :=
    runAgentLoop_tool_step w 4 (systemMessage :: history) 0 0 res tc tcs tms sIdx2 h1 h2 h3
  have hfail : runAgentLoop w 4 ((systemMessage :: history) ++ (res.message :: tms)) 1 sIdx2 =
      (Except.error (openaiErrorMsg st body), 1) :=
    runAgentLoop_fail w 3 ((systemMessage :: history) ++ (res.message :: tms)) 1 sIdx2 st body k
      hkey h4
  show runAgentLoop w (4 + 1) (systemMessage :: history) 0 0 = _
  rw [hstep, hfail]

/-- Witness for the amended C5 at the fail-on-second-call world. -/
theorem claim5_transport_error_aborts_witness :
    runAgentAux failSecondWorld [] = (Except.error (openaiErrorMsg 500 "boom"), 2) :=
  claim5_transport_error_aborts failSecondWorld [] "sk-demo" rfl
    { message :=
        { role := Role.assistant, content := "Let me look that up.",
          tool_calls := some [searchCall "call_1" "weather"] },
      finishReason := "tool_calls" }
    (searchCall "call_1" "weather") [] (by rfl) rfl
    [{ role := Role.tool, content := tavilyKeyMissingContent, tool_call_id := some "call_1" }] 0
    (by rfl) 500 "boom" rfl

/-- C6: with no completion-provider credential, `callOpenAI` does not
raise — it returns the synthetic diagnostic assistant message with
finish reason `stop` — and consequently the run's output is exactly
that one assistant message after one iteration, with no tool message
produced and no tool invocation attempted. -/
theorem claim6_missing_completion_key (w : World) (history msgs : List Message)
    (inc : Bool) (o : OpenAIOutcome) (hkey : w.openaiKey = none) :
    callOpenAI w msgs inc o =
      Except.ok { message := { role := Role.assistant, content := openaiKeyMissingContent },
                  finishReason := "stop" } ∧
    runAgentAux w history =
      (Except.ok [{ role := Role.assistant, content := openaiKeyMissingContent }], 1) := by
  have hc : ∀ (ms : List Message) (b : Bool) (oo : OpenAIOutcome),
      callOpenAI w ms b oo =
        Except.ok { message := { role := Role.assistant, content := openaiKeyMissingContent },
                    finishReason := "stop" } := by
    intro ms b oo
    unfold callOpenAI
    rw [hkey]
  exact ⟨hc msgs inc o,
    runAgentLoop_stop w 4 (systemMessage :: history) 0 0 _ (hc _ _ _) (Or.inl rfl)⟩

/-- Witness for C6 at a world with no completion key. -/
theorem claim6_missing_completion_key_witness :
    callOpenAI noKeyWorld [] true (OpenAIOutcome.fail 0 "never fetched") =
      Except.ok { message := { role := Role.assistant, content := openaiKeyMissingContent },
                  finishReason := "stop" } ∧
    runAgentAux noKeyWorld [userMessage "What is the weather?"] =
      (Except.ok [{ role := Role.assistant, content := openaiKeyMissingContent }], 1) :=
  claim6_missing_completion_key noKeyWorld [userMessage "What is the weather?"] [] true
    (OpenAIOutcome.fail 0 "never fetched") rfl

/-- C7: executing a tool call whose name is not registered yields tool
content exactly `Unknown tool: ` followed by the requested name, and
the loop then performs the next completion call instead of aborting:
with an unknown-tool first response and a plain second response, the
run returns the three messages after two completion calls. -/
theorem claim7_unknown_tool (w : World) (history : List Message)
    (res res2 : CompletionResult) (tc : ToolCall) (args : List (String × String))
    (hname : tc.function.name ≠ "web_search")
    (harg : tc.function.arguments = JsonArguments.parsed args)
    (h1 : callOpenAI w (systemMessage :: history) true (w.completions 0) = Except.ok res)
    (h2 : res.message.tool_calls = some [tc])
    (h5 : callOpenAI w ((systemMessage :: history) ++ (res.message :: [unknownToolMessage tc]))
        true (w.completions 1) = Except.ok res2)
    (h6 : res2.message.tool_calls = none) :
    executeTool w tc.function.name args 0 = ("Unknown tool: " ++ tc.function.name, 0) ∧
    runAgentAux w history =
      (Except.ok [res.message, unknownToolMessage tc, res2.message], 2) := by
  have hexec : executeTool w tc.function.name args 0 =
      ("Unknown tool: " ++ tc.function.name, 0) := by
    unfold executeTool
    rw [if_neg hname]
  refine ⟨hexec, ?_⟩
  have hex : execToolCalls w [tc] 0 = Except.ok ([unknownToolMessage tc], 0) := by
    simp only [execToolCalls, harg, hexec]
    rfl
  have hstep := runAgentLoop_tool_step w 4 (systemMessage :: history) 0 0 res tc []
    [unknownToolMessage tc] 0 h1 h2 hex
  have hstop : runAgentLoop w 4
      ((systemMessage :: history) ++ (res.message :: [unknownToolMessage tc])) 1 0 =
      (Except.ok [res2.message], 1) :=
    runAgentLoop_stop w 3 _ 1 0 res2 h5 (Or.inl h6)
  show runAgentLoop w (4 + 1) (systemMessage :: history) 0 0 = _
  rw [hstep, hstop]
  rfl

/-- Witness for C7 at the unknown-tool scenario. -/
theorem claim7_unknown_tool_witness :
    executeTool unknownToolWorld "get_time" [] 0 = ("Unknown tool: " ++ "get_time", 0) ∧
    runAgentAux unknownToolWorld [userMessage "What time is it?"] =
      (Except.ok
        [{ role := Role.assistant, content := "", tool_calls := some [getTimeCall] },
         unknownToolMessage getTimeCall,
         { role := Role.assistant, content := "Done." }], 2) :=
  claim7_unknown_tool unknownToolWorld [userMessage "What time is it?"]
    { message := { role := Role.assistant, content := "", tool_calls := some [getTimeCall] },
      finishReason := "tool_calls" }
    { message := { role := Role.assistant, content := "Done." }, finishReason := "stop" }
    getTimeCall [] (by decide) rfl (by rfl) rfl (by rfl) rfl

/-- C8 counterexample: a cap-reached run whose assistant messages carry
non-empty content alongside their tool calls ends with a tool message,
yet the handler's response is that content drawn from the output — the
`filter(assistant).pop()` selection, not the fixed fallback — contrary
to the claim. -/
theorem claim8_counterexample :
    lastRole (runAgent capWorld []) = some Role.tool ∧
    respondTurn (runAgent capWorld []) = TurnResponse.success "Searching the web..." ∧
    "Searching the web..." ≠ fallbackResponse :=
  ⟨by rfl, by rfl, by decide⟩

/-- C8 amended: the handler substitutes the fixed fallback text exactly
when the output holds no assistant message with non-empty content — in
particular in the real cap-reached case, where the provider leaves
content null alongside tool calls — not merely whenever the trailing
message is not an assistant message. -/
theorem claim8_fallback_when_no_answer (w : World) (history out : List Message)
    (h : runAgent w history = Except.ok out)
    (hempty : ∀ m ∈ out, isAssistant m = true → m.content = "") :
    respondTurn (runAgent w history) = TurnResponse.success fallbackResponse := by
  rw [h]
  show TurnResponse.success (finalResponseText out) = _
  unfold finalResponseText
  cases hl : (out.filter isAssistant).getLast? with
  | none => rfl
  | some m =>
    have hx : m ∈ (out.filter isAssistant).getLast? := by
      rw [Option.mem_def, hl]
    obtain ⟨hne, hEq⟩ := List.mem_getLast?_eq_getLast hx
    have hmem := List.mem_filter.mp (hEq ▸ List.getLast_mem hne)
    show TurnResponse.success (if m.content = "" then fallbackResponse else m.content) = _
    rw [if_pos (hempty m hmem.1 hmem.2)]

/-- Witness for the amended C8 at the cap-reached world with null
assistant contents. -/
theorem claim8_fallback_when_no_answer_witness :
    respondTurn (runAgent capEmptyWorld []) = TurnResponse.success fallbackResponse :=
  claim8_fallback_when_no_answer capEmptyWorld []
    [{ role := Role.assistant, content := "", tool_calls := some [searchCall "call_loop" "weather"] },
     { role := Role.tool, content := tavilyKeyMissingContent, tool_call_id := some "call_loop" },
     { role := Role.assistant, content := "", tool_calls := some [searchCall "call_loop" "weather"] },
     { role := Role.tool, content := tavilyKeyMissingContent, tool_call_id := some "call_loop" },
     { role := Role.assistant, content := "", tool_calls := some [searchCall "call_loop" "weather"] },
     { role := Role.tool, content := tavilyKeyMissingContent, tool_call_id := some "call_loop" },
     { role := Role.assistant, content := "", tool_calls := some [searchCall "call_loop" "weather"] },
     { role := Role.tool, content := tavilyKeyMissingContent, tool_call_id := some "call_loop" },
     { role := Role.assistant, content := "", tool_calls := some [searchCall "call_loop" "weather"] },
     { role := Role.tool, content := tavilyKeyMissingContent, tool_call_id := some "call_loop" }]
    (by rfl) (by decide)

/-- C9: the handler performs no load-time validation of the persisted
history: a history holding an orphaned tool message (its `tool_call_id`
matches no preceding assistant's tool call) is passed to the agent
unchanged, the completion provider is consulted (one call is made), and
the turn succeeds — it does not fail at load time as the claim states. -/
theorem claim9_orphan_history_not_rejected :
    runAgentAux orphanWorld orphanHistory =
      (Except.ok [{ role := Role.assistant, content := "fine" }], 1) ∧
    respondTurn (runAgent orphanWorld orphanHistory) = TurnResponse.success "fine" :=
  ⟨by rfl, by rfl⟩

/-- C10 counterexample: with a provider that returns an assistant
message identical to one already in the history, the run's output
equals the input history itself — an input message is repeated in the
output (and would be persisted again), contrary to the claim's "no
message of the input history is ever repeated". -/
theorem claim10_counterexample :
    runAgent echoWorld echoHistory = Except.ok echoHistory ∧ echoHistory ≠ [] :=
  ⟨by rfl, by decide⟩

/-- C10 amended: every message in a run's output has role `assistant`
or `tool`, so the synthesized system instruction (role `system`) never
appears in the output — and no system or user message of the input can
recur there; an input assistant message may, however, be repeated
verbatim when the provider returns identical content. -/
theorem claim10_output_roles (w : World) (history out : List Message) (m : Message)
    (h : runAgent w history = Except.ok out) (hm : m ∈ out) :
    m.role = Role.assistant ∨ m.role = Role.tool :=
  runAgentLoop_roles w maxIterations (systemMessage :: history) 0 0 out h m hm

/-- Witness for the amended C10 at the plain-answer scenario. -/
theorem claim10_output_roles_witness :
    Message.role { role := Role.assistant, content := "Hi there!" } = Role.assistant ∨
      Message.role { role := Role.assistant, content := "Hi there!" } = Role.tool :=
  claim10_output_roles stopWorld [userMessage "Hello"]
    [{ role := Role.assistant, content := "Hi there!" }]
    { role := Role.assistant, content := "Hi there!" } (by rfl) (by decide)

end ChatAgent
